import Mathlib

/-!
Verification development for the Termux AI orchestrator (`termux_ai.py`).

The file shallowly embeds the parts of the program that the checked
properties are about:

* `initAiClient` — the AI-backend fallback loop of
  `TermuxOrchestrator._init_ai_client` (source lines 1005-1037), generic
  over an ordered candidate list; a candidate models one entry of the
  `api_keys` dict: whether its environment variable is set and whether the
  `client.models.list()` connection test succeeds.
* `captureScreen` / `captureTerminalBuffer` / `cmdLook` — the screen
  pipeline of `ScreenReader.capture_screen` (461-502),
  `ScreenReader._capture_terminal_buffer` (504-527) and
  `TermuxOrchestrator.cmd_look` (1219-1264).  Boundary outcomes
  (root access, subprocess exit codes, filesystem writes raising) are
  fields of `ScreenEnv`.
* `processRequest` — the planner `VibeCoder.process_request` (720-780)
  with the language table, template triggers and package inference
  transcribed verbatim; the template file contents are the verbatim
  strings of `CodeTemplates.get_template`.
* `executeTask` — the executor `VibeCoder.execute_task` (782-859):
  confirmation gate, capabilities phase, files phase, commands phase,
  producing a ledger of step records and a success flag (the source
  signals abort by returning `False`).
* `ensurePackage` — `TermuxContext.ensure_package` (192-202).
* `cleanCode` — the generated-text post-processing of
  `VibeCoder.generate_code_with_ai` (905-910): `str.strip` followed by the
  three `re.sub` calls, implemented over an executable interpreter (`mtch`)
  for exactly the regex constructs those patterns use, with Python's
  leftmost, greedy-with-backtracking match order.
-/

/-! ## Fallback resolver: `TermuxOrchestrator._init_ai_client`

The source iterates the `api_keys` dict in insertion order
(`GROQ_API_KEY`, `OPENAI_API_KEY`, `ANTHROPIC_API_KEY`, `LOCALAI_BASE`).
For each entry: if `os.getenv(env_var)` is falsy the entry is skipped with
no output; otherwise a client is constructed and `client.models.list()` is
called — on success a "Connected" line is printed and the client returned,
on exception a "Failed" line is printed and the loop continues.  -/

/-- One entry of the `api_keys` dict of `_init_ai_client`: the environment
variable's name, whether `os.getenv` finds it set, and whether the client
construction plus `client.models.list()` connection test succeeds. -/
structure Candidate where
  name : String
  envPresent : Bool
  connectOk : Bool
deriving DecidableEq

/-- A candidate's probe, in the spec's sense: the credential is present in
the environment and the connection test passes. -/
def Candidate.probe (c : Candidate) : Bool :=
  c.envPresent && c.connectOk

/-- One console line of `_init_ai_client`: `Connected to {env_var}` on a
successful test, `Failed {env_var}: {e}` on a failed one.  A candidate whose
environment variable is unset produces no line. -/
inductive AttemptEntry where
  | connected (name : String)
  | failed (name : String)
deriving DecidableEq

/-- The loop of `_init_ai_client`: first candidate whose probe succeeds is
returned together with its `connected` line; a present-but-failing candidate
contributes a `failed` line and the loop continues; an absent candidate is
skipped silently.  Exhaustion returns `none` (the source prints a warning
and returns `None`). -/
def initAiClient : List Candidate → Option Candidate × List AttemptEntry
  | [] => (none, [])
  | c :: rest =>
    if c.envPresent then
      if c.connectOk then
        (some c, [AttemptEntry.connected c.name])
      else
        ((initAiClient rest).1, AttemptEntry.failed c.name :: (initAiClient rest).2)
    else
      initAiClient rest

/-- The fixed candidate order of the source's `api_keys` dict. -/
def apiKeyEnvVars : List String :=
  ["GROQ_API_KEY", "OPENAI_API_KEY", "ANTHROPIC_API_KEY", "LOCALAI_BASE"]

/-- The candidate list of `_init_ai_client` in an environment where none of
the four environment variables is set. -/
def allUnsetCandidates : List Candidate :=
  apiKeyEnvVars.map (fun n => { name := n, envPresent := false, connectOk := false })

/-! ## Screen pipeline: `ScreenReader` and `cmd_look` -/

/-- The capture artifact `capture_screen` hands back: a PNG image path, or
the `.txt` path of a textual terminal-buffer capture. -/
inductive Artifact where
  | image (path : String)
  | text (path : String)
deriving DecidableEq

/-- The path of an artifact. -/
def Artifact.path : Artifact → String
  | .image p => p
  | .text p => p

/-- The three capture methods of `capture_screen`, in source order. -/
inductive Method where
  | rootScreencap
  | cameraPhoto
  | terminalBuffer
deriving DecidableEq

/-- Boundary outcomes the screen pipeline depends on.  `bufferWriteOk`
models whether the filesystem writes inside `_capture_terminal_buffer`
(the `.txt` artifact write, and the fallback write inside `_text_to_image`)
raise no exception: the source wraps the whole body in `try/except` and
returns `None` when one does. -/
structure ScreenEnv where
  isRooted : Bool
  screencapOk : Bool
  hasTermuxCamera : Bool
  cameraOk : Bool
  pilAvailable : Bool
  bufferWriteOk : Bool
  textToImageOk : Bool
  aiEnabled : Bool
  aiCallOk : Bool
  aiReply : String
deriving DecidableEq

/-- `Path.with_suffix`: replace the extension (the part from the last dot)
with `.txt`, or append `.txt` when there is no dot. -/
def withTxtSuffix (p : String) : String :=
  let rev := p.toList.reverse
  if rev.contains (Char.ofNat 46) then
    String.mk (((rev.dropWhile (fun c => c ≠ Char.ofNat 46)).drop 1).reverse) ++ ".txt"
  else
    p ++ ".txt"

/-- `ScreenReader._capture_terminal_buffer`: write the buffer text to the
`.txt` path; if PIL is available render it to an image via `_text_to_image`
(whose own failure falls back to the `.txt` path); any raised exception
yields `None`. -/
def captureTerminalBuffer (env : ScreenEnv) (fname : String) : Option Artifact :=
  if env.bufferWriteOk then
    if env.pilAvailable then
      if env.textToImageOk then some (Artifact.image fname)
      else some (Artifact.text (withTxtSuffix fname))
    else some (Artifact.text (withTxtSuffix fname))
  else none

/-- Methods 2 and 3 of `capture_screen`: `termux-camera-photo` when the
command exists, then the terminal-buffer fallback.  The second component
records which methods were attempted, in order. -/
def captureScreenFromCamera (env : ScreenEnv) (fname : String) :
    Option Artifact × List Method :=
  if env.hasTermuxCamera then
    if env.cameraOk then (some (Artifact.image fname), [Method.cameraPhoto])
    else (captureTerminalBuffer env fname, [Method.cameraPhoto, Method.terminalBuffer])
  else
    (captureTerminalBuffer env fname, [Method.terminalBuffer])

/-- `ScreenReader.capture_screen`: root `screencap` first (attempted only on
a rooted device, successful when the subprocess exits 0 and the file
exists), then the camera method, then the terminal buffer.  The second
component is the ordered list of attempted methods. -/
def captureScreen (env : ScreenEnv) (fname : String) :
    Option Artifact × List Method :=
  if env.isRooted then
    if env.screencapOk then (some (Artifact.image fname), [Method.rootScreencap])
    else
      ((captureScreenFromCamera env fname).1,
        Method.rootScreencap :: (captureScreenFromCamera env fname).2)
  else
    captureScreenFromCamera env fname

/-- `ScreenReader.analyze_with_ai` / `_analyze_text_with_ai`: both return
the backend's reply, or an `Error analyzing ...` string when the call
raises — in either case a string, never an exception. -/
def analyzeWithAi (env : ScreenEnv) (a : Artifact) (_query : String) : String :=
  match a with
  | .text _ => if env.aiCallOk then env.aiReply else "Error analyzing text"
  | .image _ => if env.aiCallOk then env.aiReply else "Error analyzing screen"

/-- Outcome of `cmd_look`: the `Failed to capture screen` error path, an AI
analysis panel, or the `AI not available. Screenshot saved but not
analyzed.` path with the artifact's location. -/
inductive LookResult where
  | captureFailed
  | analyzed (text : String)
  | savedUnanalyzed (path : String)
deriving DecidableEq

/-- Whether a `cmd_look` outcome is the failure path. -/
def LookResult.isFailure : LookResult → Bool
  | .captureFailed => true
  | _ => false

/-- `TermuxOrchestrator.cmd_look`: capture the screen; on `None` report the
capture failure; otherwise analyze with the AI backend when one resolved,
or report the saved artifact's location without analysis. -/
def cmdLook (env : ScreenEnv) (fname query : String) : LookResult :=
  match (captureScreen env fname).1 with
  | none => LookResult.captureFailed
  | some a =>
    if env.aiEnabled then LookResult.analyzed (analyzeWithAi env a query)
    else LookResult.savedUnanalyzed a.path

/-- An environment with no root, no camera, no PIL, no AI, and a filesystem
on which the terminal-buffer artifact write raises. -/
def deadScreenEnv : ScreenEnv :=
  { isRooted := false, screencapOk := false, hasTermuxCamera := false,
    cameraOk := false, pilAvailable := false, bufferWriteOk := false,
    textToImageOk := false, aiEnabled := false, aiCallOk := false,
    aiReply := "" }

/-- A rooted environment whose `screencap` succeeds. -/
def rootedScreenEnv : ScreenEnv :=
  { deadScreenEnv with isRooted := true, screencapOk := true }

/-- An environment where only the terminal-buffer fallback is available and
its write succeeds. -/
def bufferOnlyScreenEnv : ScreenEnv :=
  { deadScreenEnv with bufferWriteOk := true }
/-- Source CodeTemplates.get_template: the python_web_server template string, verbatim. -/
def pythonWebServerTemplate : String :=
  "#!/usr/bin/env python3\n\"\"\"\nSimple Python Web Server\n\"\"\"\nfrom http.server import HTTPServer, SimpleHTTPRequestHandler\nimport socket\nimport os\n\nclass CustomHandler(SimpleHTTPRequestHandler):\n    def do_GET(self):\n        if self.path == \x27/\x27:\n            self.path = \x27/index.html\x27\n        return SimpleHTTPRequestHandler.do_GET(self)\n\ndef get_available_port(start_port=8080, max_port=9000):\n    \"\"\"Find an available port\"\"\"\n    for port in range(start_port, max_port):\n        try:\n            with socket.socket(socket.AF_INET, socket.SOCK_STREAM) as s:\n                s.bind((\x27\x27, port))\n                return port\n        except OSError:\n            continue\n    return start_port\n\ndef main():\n    port = get_available_port(8080)\n    server_address = (\x270.0.0.0\x27, port)\n    \n    print(f\"Starting server on http://0.0.0.0:\x7bport\x7d\")\n    print(f\"Local: http://localhost:\x7bport\x7d\")\n    print(\"Press Ctrl+C to stop\")\n    \n    # Create default index.html if not exists\n    if not os.path.exists(\x27index.html\x27):\n        with open(\x27index.html\x27, \x27w\x27) as f:\n            f.write(\"\"\"<!DOCTYPE html>\n<html>\n<head>\n    <title>Termux Server</title>\n    <style>\n        body \x7b font-family: Arial; margin: 40px; \x7d\n        h1 \x7b color: #333; \x7d\n    </style>\n</head>\n<body>\n    <h1>üöÄ Server Running!</h1>\n    <p>Powered by Termux & Python</p>\n</body>\n</html>\"\"\")\n    \n    httpd = HTTPServer(server_address, CustomHandler)\n    try:\n        httpd.serve_forever()\n    except KeyboardInterrupt:\n        print(\"\\nServer stopped.\")\n\nif __name__ == \x27__main__\x27:\n    main()"

/-- Source CodeTemplates.get_template: the bash_backup_script template string, verbatim. -/
def bashBackupScriptTemplate : String :=
  "#!/bin/bash\n# Backup Script for Termux\n# Created: $(date)\n\nBACKUP_DIR=\"$HOME/backups\"\nTIMESTAMP=$(date +\"%Y%m%d_%H%M%S\")\nBACKUP_NAME=\"backup_$TIMESTAMP.tar.gz\"\n\n# Colors for output\nRED=\x27\\033[0;31m\x27\nGREEN=\x27\\033[0;32m\x27\nYELLOW=\x27\\033[1;33m\x27\nNC=\x27\\033[0m\x27 # No Color\n\necho -e \"$\x7bYELLOW\x7düì¶ Starting backup...$\x7bNC\x7d\"\n\n# Create backup directory if it doesn\x27t exist\nmkdir -p \"$BACKUP_DIR\"\n\n# Files/directories to backup (customize this)\nBACKUP_PATHS=(\n    \"$HOME/.termux\"\n    \"$HOME/storage/shared/Documents\"\n    \"$HOME/.bashrc\"\n    \"$HOME/.bash_profile\"\n    \"$HOME/.config\"\n)\n\necho -e \"$\x7bYELLOW\x7dBacking up:$\x7bNC\x7d\"\nfor path in \"$\x7bBACKUP_PATHS[@]\x7d\"; do\n    if [ -e \"$path\" ]; then\n        echo \"  ‚úì $path\"\n    else\n        echo -e \"  $\x7bRED\x7d‚úó $path (not found)$\x7bNC\x7d\"\n    fi\ndone\n\n# Create backup\necho -e \"\\n$\x7bYELLOW\x7dCreating archive...$\x7bNC\x7d\"\nif tar -czf \"$BACKUP_DIR/$BACKUP_NAME\" \"$\x7bBACKUP_PATHS[@]\x7d\" 2>/dev/null; then\n    SIZE=$(du -h \"$BACKUP_DIR/$BACKUP_NAME\" | cut -f1)\n    echo -e \"$\x7bGREEN\x7d‚úì Backup created: $BACKUP_NAME ($SIZE)$\x7bNC\x7d\"\n    \n    # List recent backups\n    echo -e \"\\n$\x7bYELLOW\x7dRecent backups:$\x7bNC\x7d\"\n    ls -lh \"$BACKUP_DIR\"/*.tar.gz 2>/dev/null | tail -5\nelse\n    echo -e \"$\x7bRED\x7d‚úó Backup failed$\x7bNC\x7d\"\n    exit 1\nfi\n\necho -e \"\\n$\x7bGREEN\x7d‚úÖ Backup completed successfully!$\x7bNC\x7d\"\necho \"Location: $BACKUP_DIR/$BACKUP_NAME\""

/-- Source CodeTemplates.get_template: the python_quick_script template string, verbatim. -/
def pythonQuickScriptTemplate : String :=
  "#!/usr/bin/env python3\n\"\"\"\nQuick Python Script Template\n\"\"\"\nimport sys\nimport os\nfrom pathlib import Path\n\ndef main():\n    print(\"üöÄ Python Script Running!\")\n    print(f\"Python: \x7bsys.version\x7d\")\n    print(f\"Directory: \x7bos.getcwd()\x7d\")\n    print(f\"Files here: \x7blen(os.listdir(\x27.\x27))\x7d\")\n    \n    # Your code here\n    print(\"\\n‚úÖ Done!\")\n\nif __name__ == \x27__main__\x27:\n    main()"


/-- `CodeTemplates.get_template`: look the name up in the fixed dict
(`templates.get(name)`), returning the empty string for an unknown name
(`template or ""`); `process_request` passes no formatting kwargs. -/
def getTemplate : String → String
  | "python_web_server" => pythonWebServerTemplate
  | "bash_backup_script" => bashBackupScriptTemplate
  | "python_quick_script" => pythonQuickScriptTemplate
  | _ => ""

/-! ## Planner: `VibeCoder.process_request` -/

/-- Python\x27s `str.lower()`: lower-case each character. -/
def pyLower (s : String) : String :=
  String.mk (s.toList.map Char.toLower)

/-- Python's substring containment `pat in l` over character lists: the
empty pattern is contained in everything. -/
def containsSub : List Char → List Char → Bool
  | pat, [] => pat.isEmpty
  | pat, c :: r => pat.isPrefixOf (c :: r) || containsSub pat r

/-- Python's `pattern in desc` substring test on strings. -/
def substrIn (pat s : String) : Bool :=
  containsSub pat.toList s.toList

/-- The `lang_patterns` dict of `process_request`, in insertion order, with
every keyword verbatim (note the trailing blanks of some keywords). -/
def langPatterns : List (String × List String) :=
  [("python", ["python", "django", "flask", "script", ".py", "automation", "data"]),
   ("javascript", ["javascript", "node", "js ", "express", "react", "website"]),
   ("typescript", ["typescript", "ts ", "angular"]),
   ("bash", ["bash", "shell", ".sh", "script", "automate", "backup"]),
   ("html", ["html", "website", "web page", "landing"]),
   ("go", ["golang", "go ", "go program"]),
   ("rust", ["rust", "cargo", "rust program"]),
   ("c", ["c program", "c ", "c code"]),
   ("cpp", ["c++", "cpp", "c plus"])]

/-- Whether one language row of the table matches: `any(pattern in
desc_lower for pattern in patterns)` — `descLower` is the already
lower-cased description. -/
def langHit (pats : List String) (descLower : String) : Bool :=
  pats.any (fun p => substrIn p descLower)

/-- The detection loop of `process_request`: first table row with a matching
keyword wins (`break`); no match leaves the language unset. -/
def detectLang : List (String × List String) → String → Option String
  | [], _ => none
  | (lang, pats) :: rest, descLower =>
    if langHit pats descLower then some lang else detectLang rest descLower

/-- The `VibeTask` dataclass: `id` and `created_at` are assigned at creation
(`uuid`, `datetime.now()`), the rest is populated by planning;
`dependencies` is never written by the program and is omitted. -/
structure VibeTask where
  id : String
  description : String
  detected_language : Option String
  required_packages : List (String × String)
  files_to_create : List (String × String)
  commands_to_run : List String
  created_at : Nat
deriving DecidableEq

/-- `VibeCoder.process_request`: build the task, detect the language,
apply the template triggers (`web server`+python, `backup`+bash,
`quick script`+python), add the language's default packages (python →
`pkg python`, plus `pip flask` when the description mentions web/server;
javascript → `pkg nodejs`), and append `pkg nano` when the environment has
no editor.  `newId` and `now` stand for the `uuid`/`datetime.now()` inputs;
`availableEditors` is the scanned editor list of the `TermuxContext`. -/
def processRequest (newId : String) (now : Nat) (availableEditors : List String)
    (description : String) : VibeTask :=
  let descLower := pyLower description
  let t0 : VibeTask :=
    { id := newId, description := description,
      detected_language := detectLang langPatterns descLower,
      required_packages := [], files_to_create := [], commands_to_run := [],
      created_at := now }
  let t1 :=
    if substrIn "web server" descLower && (t0.detected_language == some "python") then
      { t0 with files_to_create := [("server.py", getTemplate "python_web_server")],
                commands_to_run := ["python server.py"],
                required_packages := [("pkg", "python")] }
    else if substrIn "backup" descLower && (t0.detected_language == some "bash") then
      { t0 with files_to_create := [("backup.sh", getTemplate "bash_backup_script")],
                commands_to_run := ["chmod +x backup.sh", "./backup.sh"] }
    else if substrIn "quick script" descLower && (t0.detected_language == some "python") then
      { t0 with files_to_create := [("script.py", getTemplate "python_quick_script")],
                commands_to_run := ["chmod +x script.py", "./script.py"] }
    else t0
  let t2 :=
    if t1.detected_language == some "python" then
      let ta := { t1 with required_packages := t1.required_packages ++ [("pkg", "python")] }
      if substrIn "web" descLower || substrIn "server" descLower then
        { ta with required_packages := ta.required_packages ++ [("pip", "flask")] }
      else ta
    else if t1.detected_language == some "javascript" then
      { t1 with required_packages := t1.required_packages ++ [("pkg", "nodejs")] }
    else t1
  if availableEditors.isEmpty then
    { t2 with required_packages := t2.required_packages ++ [("pkg", "nano")] }
  else t2

/-- Splitting a character list into maximal word-character runs
(accumulator holds the current run, reversed). -/
def wordSplitAux : List Char → List Char → List String
  | [], acc => if acc.isEmpty then [] else [String.mk acc.reverse]
  | c :: r, acc =>
    if c.isAlphanum || c = Char.ofNat 95 then wordSplitAux r (c :: acc)
    else if acc.isEmpty then wordSplitAux r []
    else String.mk acc.reverse :: wordSplitAux r []

/-- Modelled from the spec: the tokens of a description — its maximal
word-character runs, lower-cased. -/
def specTokens (s : String) : List String :=
  wordSplitAux (pyLower s).toList []

/-- Modelled from the spec: language detection as the claim states it —
the first language of the table whose keyword set has a non-empty
intersection with the tokens of the description.  Stated for comparison
with the source's substring-based `detectLang`. -/
def specDetectLanguage (desc : String) : Option String :=
  (langPatterns.find? (fun row => row.2.any (fun k => (specTokens desc).contains k))).map
    Prod.fst

/-! ## Executor: `VibeCoder.execute_task`

The source walks three phases over the task — package checks/installs,
file writes, confirmed commands — threading the mutable environment
(`TermuxContext` package inventories) and printing per-step lines; it
returns `False` on an abort and `True` otherwise.  Boundary outcomes
(subprocess exit codes, confirmation answers, write exceptions) are
functions of the step's identifier in `ExecInputs`. -/

/-- The mutable package inventories of the `TermuxContext` that
`execute_task` reads and updates. -/
structure ExecEnv where
  installed_packages : List String
  python_packages : List String
deriving DecidableEq

/-- The executor's boundary: the initial plan confirmation, per-package
`pkg install` outcomes and `Continue anyway?` answers, per-path write
outcomes (`write_text`/`chmod` raising no exception), and per-command
confirmation answers and exit codes. -/
structure ExecInputs where
  proceed : Bool
  pkgInstallOk : String → Bool
  continueAnyway : String → Bool
  writeOk : String → Bool
  runConfirm : String → Bool
  cmdExit : String → Int

/-- One per-step record of an execution pass, mirroring the per-step
console output of `execute_task`. -/
inductive Step where
  | installedOk (name : String)
  | installFailed (name : String)
  | pipInstalled (name : String)
  | checkedPkg (name : String)
  | fileCreated (path : String)
  | fileFailed (path : String)
  | cmdSkipped (c : String)
  | cmdRan (c : String) (exit : Int)
deriving DecidableEq

/-- Whether a step belongs to the commands phase. -/
def Step.isCmd : Step → Bool
  | .cmdSkipped _ => true
  | .cmdRan _ _ => true
  | _ => false

/-- Whether a step records a successful file write. -/
def Step.isFileCreated : Step → Bool
  | .fileCreated _ => true
  | _ => false

/-- Result of the capabilities phase: the (unchanged) task, the updated
inventories, the step records, and whether the phase completed. -/
structure CapsOut where
  task : VibeTask
  env : ExecEnv
  steps : List Step
  ok : Bool

/-- The package loop of `execute_task`: a missing `pkg` package is
installed (recorded on the inventory on success; a failure asks `Continue
anyway?` and aborts on a negative answer); a missing `pip` package is
installed without an exit-code check and recorded lower-cased; anything
else just advances the progress bar. -/
def capsPhase (t : VibeTask) (inp : ExecInputs) :
    ExecEnv → List (String × String) → CapsOut
  | env, [] => ⟨t, env, [], true⟩
  | env, (ptype, name) :: rest =>
    if ptype = "pkg" ∧ name ∉ env.installed_packages then
      if inp.pkgInstallOk name then
        let r := capsPhase t inp
          { env with installed_packages := name :: env.installed_packages } rest
        ⟨r.task, r.env, Step.installedOk name :: r.steps, r.ok⟩
      else if inp.continueAnyway name then
        let r := capsPhase t inp env rest
        ⟨r.task, r.env, Step.installFailed name :: r.steps, r.ok⟩
      else ⟨t, env, [Step.installFailed name], false⟩
    else if ptype = "pip" ∧ pyLower name ∉ env.python_packages then
      let r := capsPhase t inp
        { env with python_packages := pyLower name :: env.python_packages } rest
      ⟨r.task, r.env, Step.pipInstalled name :: r.steps, r.ok⟩
    else
      let r := capsPhase t inp env rest
      ⟨r.task, r.env, Step.checkedPkg name :: r.steps, r.ok⟩

/-- Result of the files phase. -/
structure FilesOut where
  task : VibeTask
  steps : List Step
  ok : Bool

/-- The file loop of `execute_task`: each (path, content) pair is written
(parent directories created, the executable bit set for `.sh`/`.py`); a
raised exception is reported and aborts the whole execution at once —
this loop has no continue option. -/
def filesPhase (t : VibeTask) (inp : ExecInputs) :
    List (String × String) → FilesOut
  | [] => ⟨t, [], true⟩
  | (path, _content) :: rest =>
    if inp.writeOk path then
      let r := filesPhase t inp rest
      ⟨r.task, Step.fileCreated path :: r.steps, r.ok⟩
    else ⟨t, [Step.fileFailed path], false⟩

/-- Result of the commands phase (it never aborts). -/
structure CmdsOut where
  task : VibeTask
  steps : List Step

/-- The command loop of `execute_task`: each command is offered for
confirmation — a declined one is skipped and the loop continues; a
non-zero exit is reported but does not halt the loop. -/
def cmdsPhase (t : VibeTask) (inp : ExecInputs) : List String → CmdsOut
  | [] => ⟨t, []⟩
  | c :: rest =>
    let r := cmdsPhase t inp rest
    if inp.runConfirm c then ⟨r.task, Step.cmdRan c (inp.cmdExit c) :: r.steps⟩
    else ⟨r.task, Step.cmdSkipped c :: r.steps⟩

/-- The outcome of one `execute_task` pass: the task as the executor leaves
it, the updated inventories, the full ledger, and the returned flag
(`False` = aborted). -/
structure ExecResult where
  task : VibeTask
  env : ExecEnv
  ledger : List Step
  success : Bool

/-- `VibeCoder.execute_task`: show the plan and (unless `auto_confirm`)
ask to proceed; then the capabilities, files and commands phases in that
order, stopping at the first aborting phase. -/
def executeTask (task : VibeTask) (env : ExecEnv) (inp : ExecInputs)
    (autoConfirm : Bool) : ExecResult :=
  if ¬autoConfirm ∧ inp.proceed = false then ⟨task, env, [], false⟩
  else
    let c := capsPhase task inp env task.required_packages
    if c.ok = false then ⟨c.task, c.env, c.steps, false⟩
    else
      let f := filesPhase c.task inp c.task.files_to_create
      if f.ok = false then ⟨f.task, c.env, c.steps ++ f.steps, false⟩
      else
        let m := cmdsPhase f.task inp f.task.commands_to_run
        ⟨m.task, c.env, c.steps ++ f.steps ++ m.steps, true⟩

/-! ## `TermuxContext.ensure_package` -/

/-- The three package inventories of a `TermuxContext`. -/
structure TermuxCtx where
  installed_packages : List String
  python_packages : List String
  node_packages : List String

/-- `TermuxContext.ensure_package`: `True` when the package is already in
the inventory matching its type (`pip` names are lower-cased first);
otherwise `False` — the source's installation logic is an unimplemented
comment (`Installation logic would go here`), so nothing is installed and
no inventory changes.  The context is returned to express that. -/
def ensurePackage (ctx : TermuxCtx) (pkgName : String) (pkgType : String) :
    Bool × TermuxCtx :=
  if pkgType = "pkg" ∧ pkgName ∈ ctx.installed_packages then (true, ctx)
  else if pkgType = "pip" ∧ pyLower pkgName ∈ ctx.python_packages then (true, ctx)
  else if pkgType = "npm" ∧ pkgName ∈ ctx.node_packages then (true, ctx)
  else (false, ctx)

/-! ## Generated-text post-processing: `VibeCoder.generate_code_with_ai`

The source cleans an accepted model response with

    code = response.choices[0].message.content.strip()
    code = re.sub(r___```[ws]*n___, ..., code)           -- opening fence at the string start
    code = re.sub(r___n```$___, ..., code)               -- closing fence at the end
    code = re.sub(r___^s*Here(?:[quote]?s)?.*code:?s*n___, ..., code, IGNORECASE)

(patterns shown schematically; the verbatim ones are the `RE` values
below).  `mtch` interprets exactly the constructs these three patterns
use — literals, character classes, greedy star over a class, greedy `.*`,
optional groups, and Python's `$` (end of string, or just before a final
newline) — returning the possible remainders in Python's backtracking
priority order, so the head of the list is the match Python's engine
picks.  `re.sub` replaces non-overlapping matches left to right; each of
the three patterns can match at most once (two are anchored at the start,
the third ends with `$`), so one removal is the exact semantics. -/

/-- Python's `\s` over ASCII: blank, tab, newline, carriage return,
vertical tab, form feed. -/
def pyWs (c : Char) : Bool :=
  c = ' ' || c = Char.ofNat 9 || c = Char.ofNat 10 || c = Char.ofNat 13 ||
  c = Char.ofNat 11 || c = Char.ofNat 12

/-- Python's `\w` over ASCII: letters, digits, underscore. -/
def pyWord (c : Char) : Bool :=
  c.isAlphanum || c = Char.ofNat 95

/-- The class `[\w\s]`. -/
def pyWordOrWs (c : Char) : Bool :=
  pyWord c || pyWs c

/-- Python's `str.strip()`: drop `\s` characters from both ends. -/
def pyStrip (l : List Char) : List Char :=
  ((l.dropWhile pyWs).reverse.dropWhile pyWs).reverse

/-- The regex constructs the three cleanup patterns use. -/
inductive RE where
  | lit (s : List Char)
  | litCI (s : List Char)
  | cls (p : Char → Bool)
  | seq (a b : RE)
  | opt (a : RE)
  | starCls (p : Char → Bool)
  | dotStar
  | endAnchor

/-- All remainders a pattern can leave of a list it matches at the front,
in Python's backtracking priority order (greedy pieces consume the most
first; an optional group tries its body before skipping it).  The head,
when there is one, is the remainder after the match Python's engine
returns. -/
def mtch : RE → List Char → List (List Char)
  | .lit s, l => if l.take s.length = s then [l.drop s.length] else []
  | .litCI s, l =>
    if (l.take s.length).map Char.toLower = s.map Char.toLower then
      [l.drop s.length]
    else []
  | .cls _, [] => []
  | .cls p, c :: r => if p c then [r] else []
  | .seq a b, l => ((mtch a l).map (fun l2 => mtch b l2)).flatten
  | .opt a, l => mtch a l ++ [l]
  | .starCls p, l =>
    let n := (l.takeWhile p).length
    (List.range (n + 1)).map (fun i => l.drop (n - i))
  | .dotStar, l =>
    let n := (l.takeWhile (fun c => c ≠ Char.ofNat 10)).length
    (List.range (n + 1)).map (fun i => l.drop (n - i))
  | .endAnchor, l => if l = [] ∨ l = [Char.ofNat 10] then [l] else []

/-- `re.sub(pattern, "", s)` for a pattern anchored at the start of the
string (a leading `^`, no MULTILINE): the match, if any, is removed; the
pattern cannot match again at a later position. -/
def subAnchored (r : RE) (l : List Char) : List Char :=
  match mtch r l with
  | [] => l
  | rem :: _ => rem

/-- `re.sub(pattern, "", s)` for an unanchored pattern: scan positions left
to right and remove the first (leftmost, then greedy-priority) match; the
closing-fence pattern it is used for can match at most once. -/
def subScan (r : RE) : List Char → List Char
  | [] =>
    match mtch r [] with
    | [] => []
    | rem :: _ => rem
  | c :: rest =>
    match mtch r (c :: rest) with
    | rem :: _ => rem
    | [] => c :: subScan r rest

/-- The opening-fence pattern: three backticks at the string start, a
greedy run of `[\w\s]`, then a newline. -/
def fenceOpenRE : RE :=
  RE.seq (RE.lit ("\x60\x60\x60".toList))
    (RE.seq (RE.starCls pyWordOrWs) (RE.cls (fun c => c = Char.ofNat 10)))

/-- The closing-fence pattern: a newline and three backticks at the end of
the string (Python's `$`). -/
def fenceCloseRE : RE :=
  RE.seq (RE.lit ("\n\x60\x60\x60".toList)) RE.endAnchor

/-- A single or double quote character. -/
def quoteChar (c : Char) : Bool :=
  c = Char.ofNat 39 || c = Char.ofNat 34

/-- The preamble pattern (IGNORECASE): leading whitespace, `Here`, an
optional possessive suffix (optional quote then `s`), anything up to
`code`, an optional colon, trailing whitespace and a newline. -/
def preambleRE : RE :=
  RE.seq (RE.starCls pyWs)
    (RE.seq (RE.litCI ("here".toList))
      (RE.seq (RE.opt (RE.seq (RE.opt (RE.cls quoteChar))
                              (RE.cls (fun c => c.toLower = 's'))))
        (RE.seq RE.dotStar
          (RE.seq (RE.litCI ("code".toList))
            (RE.seq (RE.opt (RE.cls (fun c => c = ':')))
              (RE.seq (RE.starCls pyWs)
                (RE.cls (fun c => c = Char.ofNat 10))))))))

/-- The cleanup pass of `generate_code_with_ai` on an accepted response:
`strip`, then the three `re.sub` calls in source order — opening fence,
closing fence, preamble line. -/
def cleanCode (raw : String) : String :=
  let l0 := pyStrip raw.toList
  let l1 := subAnchored fenceOpenRE l0
  let l2 := subScan fenceCloseRE l1
  let l3 := subAnchored preambleRE l2
  String.mk l3

/-- A backend response with a narrational preamble line followed by a
fenced code block — the shape the cleanup is specified to normalize. -/
def preambleFenceResponse : String :=
  "Here is the code:\n\x60\x60\x60python\nprint(1)\n\x60\x60\x60"

/-! ## Theorems -/

theorem capsPhase_task_eq (t : VibeTask) (inp : ExecInputs) :
    ∀ (env : ExecEnv) (ps : List (String × String)), (capsPhase t inp env ps).task = t := by
  intro env ps
  induction ps generalizing env with
  | nil => rfl
  | cons p rest ih =>
    obtain ⟨pt, nm⟩ := p
    simp only [capsPhase]
    split_ifs <;> simp [ih]

theorem filesPhase_task_eq (t : VibeTask) (inp : ExecInputs) :
    ∀ (fs : List (String × String)), (filesPhase t inp fs).task = t := by
  intro fs
  induction fs with
  | nil => rfl
  | cons f rest ih =>
    obtain ⟨path, content⟩ := f
    simp only [filesPhase]
    split_ifs <;> simp [ih]

theorem cmdsPhase_task_eq (t : VibeTask) (inp : ExecInputs) :
    ∀ (cs : List String), (cmdsPhase t inp cs).task = t := by
  intro cs
  induction cs with
  | nil => rfl
  | cons c rest ih =>
    simp only [cmdsPhase]
    split_ifs <;> simp [ih]

/-- C9: for every task, environment, boundary-outcome assignment and
confirmation mode, one `execute_task` pass leaves the task exactly as it
was — `id`, `description`, `detected_language`, `required_packages`,
`files_to_create`, `commands_to_run` and `created_at` included; the
executor only updates the environment (package inventories, filesystem)
and the ledger. -/
theorem c9_executor_preserves_task (task : VibeTask) (env : ExecEnv)
    (inp : ExecInputs) (autoConfirm : Bool) :
    (executeTask task env inp autoConfirm).task = task := by
  simp only [executeTask]
  split_ifs <;>
    simp [capsPhase_task_eq, filesPhase_task_eq, cmdsPhase_task_eq]

/-- C10: `TermuxContext.ensure_package` is a pure membership check — it
returns `True` exactly when the package is already recorded in the
inventory matching its type (`pip` names lower-cased first), attempts no
installation, and leaves the context unchanged. -/
theorem c10_ensure_package_pure (ctx : TermuxCtx) (pkgName pkgType : String) :
    (ensurePackage ctx pkgName pkgType).2 = ctx ∧
    ((ensurePackage ctx pkgName pkgType).1 = true ↔
      (pkgType = "pkg" ∧ pkgName ∈ ctx.installed_packages) ∨
      (pkgType = "pip" ∧ pyLower pkgName ∈ ctx.python_packages) ∨
      (pkgType = "npm" ∧ pkgName ∈ ctx.node_packages)) := by
  unfold ensurePackage
  split_ifs <;> simp_all

/-- The planner's detected language is the detection loop's value on the
lower-cased description: no later planning step writes that field. -/
theorem processRequest_detected (newId : String) (now : Nat)
    (e : List String) (d : String) :
    (processRequest newId now e d).detected_language =
      detectLang langPatterns (pyLower d) := by
  simp only [processRequest, apply_ite VibeTask.detected_language, ite_self]

/-- Planned files depend only on the description. -/
theorem processRequest_files (newId : String) (now : Nat)
    (e : List String) (d : String) :
    (processRequest newId now e d).files_to_create =
      (processRequest "" 0 ["nano"] d).files_to_create := by
  simp only [processRequest, apply_ite VibeTask.files_to_create, ite_self]

/-- Planned commands depend only on the description. -/
theorem processRequest_commands (newId : String) (now : Nat)
    (e : List String) (d : String) :
    (processRequest newId now e d).commands_to_run =
      (processRequest "" 0 ["nano"] d).commands_to_run := by
  simp only [processRequest, apply_ite VibeTask.commands_to_run, ite_self]

/-- The editor list can only append the one `pkg nano` requirement to the
description-determined package list. -/
theorem processRequest_packages (newId : String) (now : Nat)
    (e : List String) (d : String) :
    (processRequest newId now e d).required_packages =
        (processRequest "" 0 ["nano"] d).required_packages ∨
    (processRequest newId now e d).required_packages =
        (processRequest "" 0 ["nano"] d).required_packages ++ [("pkg", "nano")] := by
  simp only [processRequest, apply_ite VibeTask.required_packages,
    apply_ite VibeTask.detected_language, ite_self]
  cases he : e.isEmpty <;> simp [he]

/-- C5: planning `create a python web server` detects python, plans exactly
one file, at least one command, and requires the python runtime package —
whatever editors the environment has and whatever id/timestamp the task
gets. -/
theorem c5_python_web_server_plan (newId : String) (now : Nat)
    (availableEditors : List String) :
    (processRequest newId now availableEditors "create a python web server").detected_language
        = some "python" ∧
    (processRequest newId now availableEditors "create a python web server").files_to_create.length
        = 1 ∧
    1 ≤ (processRequest newId now availableEditors "create a python web server").commands_to_run.length ∧
    ("pkg", "python")
        ∈ (processRequest newId now availableEditors "create a python web server").required_packages := by
  rw [processRequest_detected, processRequest_files, processRequest_commands]
  rcases processRequest_packages newId now availableEditors "create a python web server"
    with h4 | h4 <;> rw [h4] <;>
    exact ⟨by decide, by decide, by decide, by decide⟩

/-- C6: planning the empty description is an ordinary (non-raising) call
that yields a task with no files, no commands and no detected language,
whatever editors the environment has. -/
theorem c6_empty_description_plan (newId : String) (now : Nat)
    (availableEditors : List String) :
    (processRequest newId now availableEditors "").files_to_create = [] ∧
    (processRequest newId now availableEditors "").commands_to_run = [] ∧
    (processRequest newId now availableEditors "").detected_language = none := by
  rw [processRequest_detected, processRequest_files, processRequest_commands]
  exact ⟨by decide, by decide, by decide⟩

/-- The detection loop yields nothing exactly when no table row matches. -/
theorem detectLang_eq_none_iff (table : List (String × List String)) (d : String) :
    detectLang table d = none ↔ ∀ row ∈ table, langHit row.2 d = false := by
  induction table with
  | nil => simp [detectLang]
  | cons row rest ih =>
    obtain ⟨lang, pats⟩ := row
    by_cases h : langHit pats d = true
    · simp [detectLang, h]
    · have h' : langHit pats d = false := by simpa using h
      simp [detectLang, h', ih]

/-- The detection loop yields a language exactly when some table row for it
matches and every earlier row does not: first match wins. -/
theorem detectLang_eq_some_iff (table : List (String × List String)) (d : String)
    (lang : String) :
    detectLang table d = some lang ↔
      ∃ pre pats post, table = pre ++ (lang, pats) :: post ∧
        langHit pats d = true ∧ ∀ row ∈ pre, langHit row.2 d = false := by
  induction table with
  | nil =>
    constructor
    · intro hcontra; simp [detectLang] at hcontra
    · rintro ⟨pre, pats, post, habs, -, -⟩
      exact absurd habs (by simp)
  | cons row rest ih =>
    obtain ⟨l0, p0⟩ := row
    by_cases h : langHit p0 d = true
    · have hstep : detectLang ((l0, p0) :: rest) d = some l0 := by
        simp [detectLang, h]
      rw [hstep]
      constructor
      · intro hs
        have hl : l0 = lang := by simpa using hs
        subst hl
        exact ⟨[], p0, rest, rfl, h, by simp⟩
      · rintro ⟨pre, pats, post, hdec, hpats, hpre⟩
        cases pre with
        | nil =>
          have h1 : (lang, pats) = (l0, p0) := by
            have h2 := congrArg List.head? hdec
            simpa using h2.symm
          simp only [Prod.mk.injEq] at h1
          simp [h1.1]
        | cons q pre2 =>
          have hq : langHit q.2 d = false := hpre q (by simp)
          have hql : q = (l0, p0) := by
            have h2 := congrArg List.head? hdec
            simpa using h2.symm
          rw [hql] at hq
          simp only [] at hq
          rw [h] at hq
          simp at hq
    · have hfalse : langHit p0 d = false := by simpa using h
      have hstep : detectLang ((l0, p0) :: rest) d = detectLang rest d := by
        simp [detectLang, hfalse]
      rw [hstep, ih]
      constructor
      · rintro ⟨pre, pats, post, hdec, hpats, hpre⟩
        refine ⟨(l0, p0) :: pre, pats, post, by simp [hdec], hpats, ?_⟩
        intro q hq
        rcases List.mem_cons.mp hq with rfl | hq2
        · exact hfalse
        · exact hpre q hq2
      · rintro ⟨pre, pats, post, hdec, hpats, hpre⟩
        cases pre with
        | nil =>
          have h1 : (lang, pats) = (l0, p0) := by
            have h2 := congrArg List.head? hdec
            simpa using h2.symm
          simp only [Prod.mk.injEq] at h1
          rw [h1.2] at hpats
          rw [hpats] at hfalse
          simp at hfalse
        | cons q pre2 =>
          have hq : rest = pre2 ++ (lang, pats) :: post := by
            have h2 := congrArg List.tail hdec
            simpa using h2
          exact ⟨pre2, pats, post, hq, hpats, fun r hr => hpre r (by simp [hr])⟩

/-- C4 (amended): the planner's detected language is the first language of
the fixed table one of whose keywords occurs — case-insensitively, as a
substring — in the description; ties go to the earlier table row, and no
substring match leaves the language unset. -/
theorem c4_first_substring_match (newId : String) (now : Nat)
    (availableEditors : List String) (desc : String) :
    ((processRequest newId now availableEditors desc).detected_language = none ↔
      ∀ row ∈ langPatterns, langHit row.2 (pyLower desc) = false) ∧
    (∀ lang, (processRequest newId now availableEditors desc).detected_language = some lang ↔
      ∃ pre pats post, langPatterns = pre ++ (lang, pats) :: post ∧
        langHit pats (pyLower desc) = true ∧
        ∀ row ∈ pre, langHit row.2 (pyLower desc) = false) := by
  rw [processRequest_detected]
  exact ⟨detectLang_eq_none_iff langPatterns (pyLower desc),
    fun lang => detectLang_eq_some_iff langPatterns (pyLower desc) lang⟩

/-- C4 (counterexample): on the description `database` the source's
substring matching fires the `data` keyword and detects python, while the
claim's token-intersection rule matches no keyword and leaves the language
unset — so detection is not token-intersection based. -/
theorem c4_counterexample :
    (processRequest "" 0 ["nano"] "database").detected_language = some "python" ∧
    specDetectLanguage "database" = none := by
  exact ⟨by rw [processRequest_detected]; decide, by decide⟩

/-- C1: fallback order.  First conjunct — `_init_ai_client`: when candidate
`k` is the first whose probe succeeds (credential present and connection
test passing), resolution returns exactly candidate `k`, and the attempt
ledger covers only candidates up to `k`: the failed attempts among the
first `k` (those with a present credential), then candidate `k`'s
connection — so no later candidate is probed or invoked.  Second conjunct —
`capture_screen`: when root `screencap` is available and succeeds it is
returned alone; when it is not and the camera method succeeds the camera
result is returned without attempting the terminal buffer; when both fail
the result is the terminal-buffer capture, after attempting exactly the
available earlier methods in order. -/
theorem c1_fallback_first_success :
    (∀ (cands : List Candidate) (k : Nat) (ck : Candidate),
        cands.get? k = some ck → ck.probe = true →
        (cands.take k).all (fun c => !c.probe) = true →
        initAiClient cands =
          (some ck,
            ((cands.take k).filter (fun c => c.envPresent)).map
                (fun c => AttemptEntry.failed c.name)
              ++ [AttemptEntry.connected ck.name])) ∧
    (∀ (env : ScreenEnv) (fname : String),
        (env.isRooted = true → env.screencapOk = true →
          captureScreen env fname =
            (some (Artifact.image fname), [Method.rootScreencap])) ∧
        ((env.isRooted && env.screencapOk) = false → env.hasTermuxCamera = true →
          env.cameraOk = true →
          captureScreen env fname =
            (some (Artifact.image fname),
              if env.isRooted then [Method.rootScreencap, Method.cameraPhoto]
              else [Method.cameraPhoto])) ∧
        ((env.isRooted && env.screencapOk) = false →
          (env.hasTermuxCamera && env.cameraOk) = false →
          captureScreen env fname =
            (captureTerminalBuffer env fname,
              (if env.isRooted then [Method.rootScreencap] else []) ++
                (if env.hasTermuxCamera then [Method.cameraPhoto] else []) ++
                [Method.terminalBuffer]))) := by
  constructor
  · intro cands
    induction cands with
    | nil => intro k ck hget; simp at hget
    | cons c rest ih =>
      intro k ck hget hp hall
      cases k with
      | zero =>
        simp only [List.get?] at hget
        injection hget with hget
        subst hget
        obtain ⟨h1, h2⟩ := Bool.and_eq_true_iff.mp hp
        simp [initAiClient, h1, h2]
      | succ k =>
        rw [List.take_succ_cons, List.all_cons, Bool.and_eq_true_iff] at hall
        obtain ⟨hc, hrest⟩ := hall
        have hcp : c.probe = false := by simpa using hc
        simp only [List.get?] at hget
        cases hpres : c.envPresent with
        | false =>
          simp only [initAiClient, hpres, Bool.false_eq_true, if_false]
          rw [ih k ck hget hp hrest]
          simp [List.filter_cons, hpres]
        | true =>
          have hco : c.connectOk = false := by
            cases hx : c.connectOk with
            | false => rfl
            | true => rw [Candidate.probe, hpres, hx] at hcp; simp at hcp
          simp only [initAiClient, hpres, hco, Bool.false_eq_true, if_false, if_true]
          rw [ih k ck hget hp hrest]
          simp [List.filter_cons, hpres]
  · intro env fname
    refine ⟨?_, ?_, ?_⟩
    · intro h1 h2
      simp [captureScreen, h1, h2]
    · intro h12 h3 h4
      cases hr : env.isRooted with
      | false => simp [captureScreen, captureScreenFromCamera, hr, h3, h4]
      | true =>
        have h2 : env.screencapOk = false := by
          cases hx : env.screencapOk with
          | false => rfl
          | true => rw [hr, hx] at h12; simp at h12
        simp [captureScreen, captureScreenFromCamera, hr, h2, h3, h4]
    · intro h12 h34
      cases hr : env.isRooted with
      | false =>
        cases hcam : env.hasTermuxCamera with
        | false => simp [captureScreen, captureScreenFromCamera, hr, hcam]
        | true =>
          have h4 : env.cameraOk = false := by
            cases hx : env.cameraOk with
            | false => rfl
            | true => rw [hcam, hx] at h34; simp at h34
          simp [captureScreen, captureScreenFromCamera, hr, hcam, h4]
      | true =>
        have h2 : env.screencapOk = false := by
          cases hx : env.screencapOk with
          | false => rfl
          | true => rw [hr, hx] at h12; simp at h12
        cases hcam : env.hasTermuxCamera with
        | false => simp [captureScreen, captureScreenFromCamera, hr, h2, hcam]
        | true =>
          have h4 : env.cameraOk = false := by
            cases hx : env.cameraOk with
            | false => rfl
            | true => rw [hcam, hx] at h34; simp at h34
          simp [captureScreen, captureScreenFromCamera, hr, h2, hcam, h4]

/-- A candidate list whose first entry fails its connection test and whose
second probe succeeds. -/
def c1WitnessCandidates : List Candidate :=
  [{ name := "GROQ_API_KEY", envPresent := true, connectOk := false },
   { name := "OPENAI_API_KEY", envPresent := true, connectOk := true }]

/-- C1 witness: on a concrete two-candidate list the resolver returns the
second candidate with a ledger naming only the first two, and on a rooted
environment with a working `screencap` the capture returns the screencap
image having attempted nothing else. -/
theorem c1_fallback_first_success_witness :
    initAiClient c1WitnessCandidates =
      (some { name := "OPENAI_API_KEY", envPresent := true, connectOk := true },
        [AttemptEntry.failed "GROQ_API_KEY", AttemptEntry.connected "OPENAI_API_KEY"]) ∧
    captureScreen rootedScreenEnv "shot.png" =
      (some (Artifact.image "shot.png"), [Method.rootScreencap]) :=
  ⟨c1_fallback_first_success.1 c1WitnessCandidates 1
      { name := "OPENAI_API_KEY", envPresent := true, connectOk := true }
      (by decide) (by decide) (by decide),
   (c1_fallback_first_success.2 rootedScreenEnv "shot.png").1 rfl rfl⟩

/-- C7 (amended): when every candidate's probe fails, `_init_ai_client`
returns no client, and the attempt ledger holds exactly one entry per
candidate whose credential is present in the environment, in input order —
candidates with an unset credential are skipped silently and contribute no
entry. -/
theorem c7_exhaustion (cands : List Candidate)
    (h : ∀ c ∈ cands, c.probe = false) :
    initAiClient cands =
      (none,
        (cands.filter (fun c => c.envPresent)).map
          (fun c => AttemptEntry.failed c.name)) := by
  induction cands with
  | nil => rfl
  | cons c rest ih =>
    have hc : c.probe = false := h c (List.mem_cons_self c rest)
    have hrest : ∀ x ∈ rest, x.probe = false :=
      fun x hx => h x (List.mem_cons_of_mem c hx)
    cases hpres : c.envPresent with
    | false =>
      simp only [initAiClient, hpres, Bool.false_eq_true, if_false]
      rw [ih hrest]
      simp [List.filter_cons, hpres]
    | true =>
      have hco : c.connectOk = false := by
        cases hx : c.connectOk with
        | false => rfl
        | true => rw [Candidate.probe, hpres, hx] at hc; simp at hc
      simp only [initAiClient, hpres, hco, Bool.false_eq_true, if_false, if_true]
      rw [ih hrest]
      simp [List.filter_cons, hpres]

/-- A candidate list on which every probe fails, two credentials being
present but failing their connection test and two being absent. -/
def c7WitnessCandidates : List Candidate :=
  [{ name := "GROQ_API_KEY", envPresent := true, connectOk := false },
   { name := "OPENAI_API_KEY", envPresent := false, connectOk := false },
   { name := "ANTHROPIC_API_KEY", envPresent := true, connectOk := false },
   { name := "LOCALAI_BASE", envPresent := false, connectOk := false }]

/-- C7 witness: on a concrete all-failing list the resolver returns no
client, and the ledger has one entry per present credential, in order. -/
theorem c7_exhaustion_witness :
    initAiClient c7WitnessCandidates =
      (none, [AttemptEntry.failed "GROQ_API_KEY", AttemptEntry.failed "ANTHROPIC_API_KEY"]) :=
  c7_exhaustion c7WitnessCandidates (by decide)

/-- C7 (counterexample): in the environment where none of the four
credentials of the source's `api_keys` dict is set, every probe fails and
resolution returns no client, but the attempt ledger is empty — not one
entry per candidate as the claim requires of every all-failing list. -/
theorem c7_exhaustion_counterexample :
    (∀ c ∈ allUnsetCandidates, c.probe = false) ∧
    initAiClient allUnsetCandidates = (none, []) ∧
    allUnsetCandidates.length = 4 ∧
    (initAiClient allUnsetCandidates).2.length ≠ allUnsetCandidates.length := by
  refine ⟨by decide, by decide, by decide, by decide⟩

/-- When the artifact write succeeds, the terminal-buffer capture returns
an artifact. -/
theorem captureTerminalBuffer_isSome (env : ScreenEnv) (fname : String)
    (h : env.bufferWriteOk = true) :
    (captureTerminalBuffer env fname).isSome = true := by
  simp only [captureTerminalBuffer, h, if_true]
  split_ifs <;> rfl

/-- `capture_screen` returns either an image from one of the first two
methods or whatever the terminal-buffer fallback returns. -/
theorem captureScreen_cases (env : ScreenEnv) (fname : String) :
    (captureScreen env fname).1 = some (Artifact.image fname) ∨
    (captureScreen env fname).1 = captureTerminalBuffer env fname := by
  simp only [captureScreen, captureScreenFromCamera]
  split_ifs <;> simp

/-- C2 (amended): whenever writing the terminal-buffer artifact to the
filesystem raises no error, the terminal-buffer capture succeeds, screen
capture as a whole returns an artifact, and `cmd_look` returns a
non-failure outcome — even with no root, no camera, no PIL and no AI
backend.  (When that write itself raises, the source returns `None` and
`cmd_look` reports a capture failure: see the counterexample.) -/
theorem c2_buffer_fallback (env : ScreenEnv) (fname query : String)
    (h : env.bufferWriteOk = true) :
    (captureTerminalBuffer env fname).isSome = true ∧
    ((captureScreen env fname).1).isSome = true ∧
    (cmdLook env fname query).isFailure = false := by
  have hb := captureTerminalBuffer_isSome env fname h
  have hcap : ((captureScreen env fname).1).isSome = true := by
    rcases captureScreen_cases env fname with hc | hc <;> rw [hc]
    · rfl
    · exact hb
  refine ⟨hb, hcap, ?_⟩
  obtain ⟨a, ha⟩ := Option.isSome_iff_exists.mp hcap
  simp only [cmdLook, ha]
  split_ifs <;> rfl

/-- C2 witness: in the environment with nothing but a writable filesystem,
capture succeeds through the terminal buffer and `cmd_look` does not
fail. -/
theorem c2_buffer_fallback_witness :
    (captureTerminalBuffer bufferOnlyScreenEnv "shot.png").isSome = true ∧
    ((captureScreen bufferOnlyScreenEnv "shot.png").1).isSome = true ∧
    (cmdLook bufferOnlyScreenEnv "shot.png" "what is on my screen").isFailure = false :=
  c2_buffer_fallback bufferOnlyScreenEnv "shot.png" "what is on my screen" rfl

/-- C2 (counterexample): in the environment where the terminal-buffer
artifact write raises, the fallback capture returns `None`, the whole
capture returns `None`, and `cmd_look` takes its failure path — so the
fallback does not succeed in every environment. -/
theorem c2_buffer_fallback_counterexample :
    captureTerminalBuffer deadScreenEnv "shot.png" = none ∧
    (captureScreen deadScreenEnv "shot.png").1 = none ∧
    (cmdLook deadScreenEnv "shot.png" "what is on my screen").isFailure = true := by
  refine ⟨by decide, by decide, by decide⟩

/-- The capabilities phase records no command-phase and no file-write
steps. -/
theorem capsPhase_no_cmd_no_file (t : VibeTask) (inp : ExecInputs) :
    ∀ (env : ExecEnv) (ps : List (String × String)),
      ((capsPhase t inp env ps).steps).countP Step.isCmd = 0 ∧
      ((capsPhase t inp env ps).steps).countP Step.isFileCreated = 0 := by
  intro env ps
  induction ps generalizing env with
  | nil => simp [capsPhase]
  | cons p rest ih =>
    obtain ⟨pt, nm⟩ := p
    simp only [capsPhase]
    split_ifs <;>
      simp [List.countP_cons, Step.isCmd, Step.isFileCreated, ih]

/-- When some file's write fails, the files phase aborts, records no
command step, and records a successful write for exactly the files before
the first failing one. -/
theorem filesPhase_fail (t : VibeTask) (inp : ExecInputs) :
    ∀ (fs : List (String × String)), (∃ f ∈ fs, inp.writeOk f.1 = false) →
      (filesPhase t inp fs).ok = false ∧
      ((filesPhase t inp fs).steps).countP Step.isCmd = 0 ∧
      ((filesPhase t inp fs).steps).countP Step.isFileCreated =
        (fs.takeWhile (fun f => inp.writeOk f.1)).length := by
  intro fs h
  induction fs with
  | nil => simp at h
  | cons f rest ih =>
    obtain ⟨path, content⟩ := f
    by_cases hw : inp.writeOk path = true
    · have hrest : ∃ g ∈ rest, inp.writeOk g.1 = false := by
        obtain ⟨g, hg, hgw⟩ := h
        rcases List.mem_cons.mp hg with rfl | hg2
        · rw [hw] at hgw; simp at hgw
        · exact ⟨g, hg2, hgw⟩
      have hih := ih hrest
      refine ⟨?_, ?_, ?_⟩ <;>
        simp [filesPhase, hw, List.countP_cons, Step.isCmd, Step.isFileCreated,
          List.takeWhile_cons, hih.1, hih.2.1, hih.2.2]
    · have hw2 : inp.writeOk path = false := by simpa using hw
      refine ⟨?_, ?_, ?_⟩ <;>
        simp [filesPhase, hw2, List.countP_cons, Step.isCmd, Step.isFileCreated,
          List.takeWhile_cons]

/-- C3: when some planned file's write fails, the execution pass ends
aborted (the source returns `False`), the ledger holds zero command-phase
entries — the COMMANDS phase is never entered — and no file at or past the
first failing one is recorded as written: the successful-write records stop
strictly before the failing file. -/
theorem c3_write_failure_aborts (task : VibeTask) (env : ExecEnv)
    (inp : ExecInputs) (autoConfirm : Bool)
    (h : ∃ f ∈ task.files_to_create, inp.writeOk f.1 = false) :
    (executeTask task env inp autoConfirm).success = false ∧
    ((executeTask task env inp autoConfirm).ledger).countP Step.isCmd = 0 ∧
    ((executeTask task env inp autoConfirm).ledger).countP Step.isFileCreated ≤
      (task.files_to_create.takeWhile (fun f => inp.writeOk f.1)).length := by
  simp only [executeTask]
  split_ifs with h1 h2 h3
  · simp
  · have hc := capsPhase_no_cmd_no_file task inp env task.required_packages
    simp [hc.1, hc.2]
  · have hc := capsPhase_no_cmd_no_file task inp env task.required_packages
    have ht := capsPhase_task_eq task inp env task.required_packages
    rw [ht] at h3 ⊢
    have hf := filesPhase_fail task inp task.files_to_create h
    refine ⟨rfl, ?_, ?_⟩
    · simp [List.countP_append, hc.1, hf.2.1]
    · simp [List.countP_append, hc.2, hf.2.2]
  · exfalso
    have ht := capsPhase_task_eq task inp env task.required_packages
    rw [ht] at h3
    exact h3 (filesPhase_fail task inp task.files_to_create h).1

/-- The C3 task: two files and two commands. -/
def c3Task : VibeTask :=
  { id := "t1", description := "two files then two commands",
    detected_language := none, required_packages := [],
    files_to_create := [("a.py", "print(1)"), ("b.py", "print(2)")],
    commands_to_run := ["python a.py", "python b.py"], created_at := 0 }

/-- The C3 boundary: everything is confirmed and succeeds except the first
file's write. -/
def c3Inputs : ExecInputs :=
  { proceed := true, pkgInstallOk := fun _ => true,
    continueAnyway := fun _ => true, writeOk := fun p => p != "a.py",
    runConfirm := fun _ => true, cmdExit := fun _ => 0 }

/-- C3 witness: on the two-file, two-command task whose first write fails,
the pass is aborted with zero command entries and zero files recorded as
written. -/
theorem c3_write_failure_aborts_witness :
    (executeTask c3Task ⟨[], []⟩ c3Inputs true).success = false ∧
    ((executeTask c3Task ⟨[], []⟩ c3Inputs true).ledger).countP Step.isCmd = 0 ∧
    ((executeTask c3Task ⟨[], []⟩ c3Inputs true).ledger).countP Step.isFileCreated ≤
      (c3Task.files_to_create.takeWhile (fun f => c3Inputs.writeOk f.1)).length :=
  c3_write_failure_aborts c3Task ⟨[], []⟩ c3Inputs true (by decide)

/-- C8 (code bug): on a response made of a preamble line followed by a
fenced code block, the cleanup keeps the opening fence line: the
fence-stripping substitution runs first and is anchored at the start of
the string, where the preamble still sits, and the preamble substitution
that then removes that line leaves the fence it had been hiding.  The
accepted file content is `(three backticks)python\nprint(1)` instead of
the `print(1)` the claim — and the function's own prompt (`NO markdown
formatting`) and comment (`Clean markdown if present`) — call for. -/
theorem c8_preamble_fence_retained :
    cleanCode preambleFenceResponse = "\x60\x60\x60python\nprint(1)" ∧
    cleanCode preambleFenceResponse ≠ "print(1)" := by
  refine ⟨by decide, by decide⟩
